import Mathlib

/-!
Verification development for the `catalog_web_portal` Odoo add-on,
centered on the cross-instance product synchronization engine in
`models/catalog_sync.py`.

The Python code is shallowly embedded: ORM records become structures,
dynamic field access becomes a `String → PyVal` lookup, remote XML-RPC
calls become an explicit `Remote` interface whose results are inputs,
exceptions become `Except String`, and Python numbers are modelled as
exact unnormalized fractions (`PyFloat`) — every concrete input used
below is exactly representable as a binary float, so exact-rational
arithmetic coincides with the float arithmetic the source performs on
those inputs.
-/

deriving instance DecidableEq for Except

namespace CatalogPortal

/-- Exact fraction `num / den`. Fractions built by the operations below
from integer-valued inputs keep `0 < den`; no gcd normalization is
performed, and comparisons are by cross multiplication (sound whenever
denominators are positive). -/
structure PyFloat where
  num : ℤ
  den : ℤ
  deriving DecidableEq, Repr

namespace PyFloat

/-- Embed an integer. -/
def ofInt (n : ℤ) : PyFloat := ⟨n, 1⟩

/-- Build a fraction with the sign carried by the numerator. -/
def mkSigned (n d : ℤ) : PyFloat := if d < 0 then ⟨-n, -d⟩ else ⟨n, d⟩

def add (a b : PyFloat) : PyFloat := ⟨a.num * b.den + b.num * a.den, a.den * b.den⟩

def sub (a b : PyFloat) : PyFloat := ⟨a.num * b.den - b.num * a.den, a.den * b.den⟩

def mul (a b : PyFloat) : PyFloat := ⟨a.num * b.num, a.den * b.den⟩

def div (a b : PyFloat) : PyFloat := mkSigned (a.num * b.den) (a.den * b.num)

/-- Comparison `a < b` by cross multiplication (valid for positive denominators). -/
def blt (a b : PyFloat) : Bool := a.num * b.den < b.num * a.den

/-- Comparison `a == b` by cross multiplication (valid for positive denominators). -/
def beq (a b : PyFloat) : Bool := a.num * b.den = b.num * a.den

/-- The rational value of a fraction. -/
def toRat (a : PyFloat) : ℚ := (a.num : ℚ) / (a.den : ℚ)

end PyFloat

/-- Python runtime values as they flow through the sync engine:
`None`/`False`-style values, booleans, numbers (int/float collapsed to
exact fractions), and strings. Mirrors the value domain of the JSON
field-change maps and of ORM field reads. -/
inductive PyVal where
  | none
  | bool (b : Bool)
  | num (q : PyFloat)
  | str (s : String)
  deriving DecidableEq, Repr

/-- Python truthiness (`bool(v)`): `None` and `False` are falsy, numbers
are truthy iff non-zero, strings iff non-empty. -/
def pyTruthy : PyVal → Bool
  | .none => false
  | .bool b => b
  | .num q => !(q.beq (.ofInt 0))
  | .str s => decide (s ≠ "")

/-- Python `isinstance(v, (int, float))`. Note that `bool` is a subclass
of `int` in Python, so booleans count as numeric. -/
def pyIsNumber : PyVal → Bool
  | .bool _ => true
  | .num _ => true
  | _ => false

/-- Numeric view used where the source performs arithmetic on a value
(`v > 0`, `old - new`, `v * coefficient`); errors model Python's
`TypeError` on non-numeric operands. -/
def pyToNum : PyVal → Except String PyFloat
  | .bool b => .ok (.ofInt (if b then 1 else 0))
  | .num q => .ok q
  | _ => .error "TypeError: unsupported operand type"

/-- Python `v * coefficient` for a value known to satisfy
`isinstance(v, (int, float))`. -/
def pyMulCoef (v : PyVal) (c : PyFloat) : PyVal :=
  match v with
  | .bool b => .num ((PyFloat.ofInt (if b then 1 else 0)).mul c)
  | .num q => .num (q.mul c)
  | v => v

/-- Python `==` between engine values (`1 == 1.0` and `True == 1` hold;
values of unrelated types compare unequal). -/
def pyEq : PyVal → PyVal → Bool
  | .none, .none => true
  | .bool a, .bool b => a == b
  | .bool a, .num q => (PyFloat.ofInt (if a then 1 else 0)).beq q
  | .num q, .bool b => q.beq (.ofInt (if b then 1 else 0))
  | .num a, .num b => a.beq b
  | .str a, .str b => a == b
  | _, _ => false

/-- Python `str.strip()` over the character list (leading and trailing
whitespace removed). -/
def pyStrip (s : String) : String :=
  String.mk (((s.data.dropWhile Char.isWhitespace).reverse.dropWhile
    Char.isWhitespace).reverse)

/-- Python `str.lower()` (character-wise). -/
def pyLower (s : String) : String := String.mk (s.data.map Char.toLower)

/-- Whether the first list is a prefix of the second. -/
def isPrefixList : List Char → List Char → Bool
  | [], _ => true
  | _ :: _, [] => false
  | a :: as, b :: bs => a = b && isPrefixList as bs

/-- Whether `t` occurs as a contiguous sublist. -/
def hasSubList (t : List Char) : List Char → Bool
  | [] => isPrefixList t []
  | c :: rest => isPrefixList t (c :: rest) || hasSubList t rest

/-- Substring test (`t in s` in Python). -/
def containsSub (s t : String) : Bool := hasSubList t.data s.data

/-- Python-dict insertion into an association list: overwrite in place
when the key exists (Python dicts keep the original position), append
otherwise. -/
def dictInsert {α : Type} (m : List (String × α)) (k : String) (v : α) :
    List (String × α) :=
  if m.any (fun kv => kv.1 = k) then
    m.map (fun kv => if kv.1 = k then (k, v) else kv)
  else m ++ [(k, v)]

/-! ## Field mappings (`catalog.field.mapping`) -/

/-- Values of the `sync_mode` selection of a field mapping. -/
inductive SyncMode where
  | create_only
  | always
  | if_empty
  | manual
  deriving DecidableEq, Repr

/-- Values of the `default_value_apply` selection of a field mapping. -/
inductive ApplyPolicy where
  | never
  | if_source_empty
  | always
  deriving DecidableEq, Repr

/-- One `catalog.field.mapping` record. An unset Odoo `Char` field reads
as Python `False`; both it and `''` are falsy, so unset text fields are
modelled as `""`. -/
structure FieldMapping where
  source_field : String
  target_field : String
  sync_mode : SyncMode
  default_value : String
  default_value_apply : ApplyPolicy
  apply_coefficient : Bool
  coefficient : PyFloat
  is_active : Bool
  deriving DecidableEq, Repr

/-- Embeds `CatalogFieldMapping.TARGET_FIELD_TYPES` with the `.get(_, 'char')`
default. -/
def targetFieldType (target : String) : String :=
  if target = "name" then "char"
  else if target = "default_code" then "char"
  else if target = "list_price" then "float"
  else if target = "standard_price" then "float"
  else if target = "barcode" then "char"
  else if target = "weight" then "float"
  else if target = "volume" then "float"
  else if target = "description_sale" then "text"
  else if target = "description_purchase" then "text"
  else if target = "categ_id" then "integer"
  else if target = "type" then "selection"
  else if target = "sale_ok" then "boolean"
  else if target = "purchase_ok" then "boolean"
  else if target = "is_published" then "boolean"
  else "char"

/-- Embeds `CatalogFieldMapping._convert_default_value`. The Python parsing
primitives `float(raw)` and `int(raw)` are passed in as `pf`/`pi`
(`Option.none` = the primitive raises `ValueError`/`TypeError`); the
source catches those and falls back, so this embedding is total for
every parser behaviour. -/
def convert_default_value (pf : String → Option PyFloat) (pi : String → Option ℤ)
    (m : FieldMapping) : PyVal :=
  if m.default_value = "" then .bool false
  else
    let ftype := targetFieldType m.target_field
    let raw := pyStrip m.default_value
    if ftype = "float" then
      match pf raw with
      | some q => .num q
      | Option.none => .num (.ofInt 0)
    else if ftype = "integer" then
      match pi raw with
      | some z => .num (.ofInt z)
      | Option.none => .bool false
    else if ftype = "boolean" then
      .bool (pyLower raw = "true" ∨ pyLower raw = "1" ∨
             pyLower raw = "yes" ∨ pyLower raw = "oui")
    else .str raw

/-- A local `product.template` record. `attr` models the ORM's dynamic
field access `product[field_name]`; `default_code` is `Option` because
an unset reference reads as `False`. -/
structure Product where
  id : ℕ
  default_code : Option String
  name : String
  image_1920 : Option String
  attr : String → PyVal

/-- Embeds `CatalogFieldMapping._resolve_value`; `product = Option.none` models
the Python `product=None` call (target-only mappings). -/
def resolve_value (pf : String → Option PyFloat) (pi : String → Option ℤ)
    (m : FieldMapping) (product : Option Product) : PyVal :=
  let default_val := convert_default_value pf pi m
  -- Always use default — ignore source entirely
  if m.default_value_apply = .always ∧ m.default_value ≠ "" then default_val
  -- No source field (target-only mapping) — must use default
  else if m.source_field = "_none" then
    if m.default_value ≠ "" then default_val else .bool false
  else
    -- Read from source
    let source_value := match product with
      | some p => p.attr m.source_field
      | Option.none => .bool false
    -- Source is empty and we have a fallback default
    if m.default_value_apply = .if_source_empty ∧ pyTruthy source_value = false ∧
        m.default_value ≠ "" then
      default_val
    -- Apply coefficient if applicable
    else if m.apply_coefficient ∧ pyIsNumber source_value then
      pyMulCoef source_value m.coefficient
    else source_value

/-! ## Connection settings and reference generation
    (`CatalogClientConnection`) -/

/-- Values of the `reference_mode` selection; `noRef` is the source's `'none'`
mode. -/
inductive RefMode where
  | keep_original
  | supplier_ref
  | product_id
  | custom_format
  | noRef
  deriving DecidableEq, Repr

/-- One `catalog.client.connection` record, restricted to the settings
the sync engine reads. `reference_prefix_val` mirrors the source field
`reference_prefix`; unset `Char` fields are modelled as `""` (both read
falsy in Python). -/
structure Connection where
  client_id : ℕ
  reference_mode : RefMode
  reference_prefix_val : String
  reference_suffix : String
  reference_separator : String
  reference_custom_format : String
  field_mapping_ids : List FieldMapping
  sync_variants : Bool
  include_images : Bool
  preserve_client_images : Bool

/-- Scanner state for `str.format`: outside any placeholder, inside a
`{...}` placeholder collecting the (reversed) field name, or just after
a lone `}` (which must be doubled). -/
inductive FmtState where
  | out
  | inBrace (acc : List Char)
  | closeBrace

/-- One pass of Python `str.format` over the format string's characters,
for formats using plain named placeholders (no conversion/format specs):
`{name}` is replaced via `su`, `{{`/`}}` are brace escapes, and
`Option.none` models the `KeyError`/`ValueError` the Python call raises
on an unknown name or malformed braces. Substituted values are not
re-scanned, exactly as in Python. -/
def formatSubstAux (su : String → Option String) :
    FmtState → List Char → Option (List Char)
  | .out, [] => some []
  | .inBrace _, [] => Option.none
  | .closeBrace, [] => Option.none
  | .closeBrace, c :: rest =>
      if c = '}' then (fun r => '}' :: r) <$> formatSubstAux su .out rest
      else Option.none
  | .inBrace acc, c :: rest =>
      if c = '}' then
        match su (String.mk acc.reverse) with
        | some v => (fun r => v.data ++ r) <$> formatSubstAux su .out rest
        | Option.none => Option.none
      else if c = '{' ∧ acc = [] then
        (fun r => '{' :: r) <$> formatSubstAux su .out rest
      else formatSubstAux su (.inBrace (c :: acc)) rest
  | .out, c :: rest =>
      if c = '{' then formatSubstAux su (.inBrace []) rest
      else if c = '}' then formatSubstAux su .closeBrace rest
      else (fun r => c :: r) <$> formatSubstAux su .out rest

/-- Python `fmt.format(...)` with keyword arguments given by `su`. -/
def formatSubst (fmt : String) (su : String → Option String) : Option String :=
  (formatSubstAux su .out fmt.data).map String.mk

/-- The keyword arguments the source passes to
`reference_custom_format.format(...)`: `prefix`, `ref`, `id`, `suffix`,
`separator`. -/
def refSubst (c : Connection) (p : Product) : String → Option String :=
  fun name =>
    if name = "prefix" then some c.reference_prefix_val
    else if name = "ref" then some (p.default_code.getD "")
    else if name = "id" then some (toString p.id)
    else if name = "suffix" then some c.reference_suffix
    else if name = "separator" then some c.reference_separator
    else Option.none

/-- The prefix/base/suffix wrapping at the end of
`generate_product_reference`: non-empty parts joined by the separator,
`Option.none` (Python `False`) when every part is empty. -/
def buildWrappedRef (c : Connection) (base : String) : Option String :=
  let parts :=
    (if c.reference_prefix_val ≠ "" then [c.reference_prefix_val] else []) ++
    (if base ≠ "" then [base] else []) ++
    (if c.reference_suffix ≠ "" then [c.reference_suffix] else [])
  if parts.isEmpty then Option.none
  else some (String.intercalate c.reference_separator parts)

/-- Embeds `CatalogClientConnection.generate_product_reference`. Here `.ok
Option.none` is the source's `False` return (`'none'` mode); the error
case models the exception `str.format` raises on a malformed custom
format. -/
def generate_product_reference (c : Connection) (p : Product) :
    Except String (Option String) :=
  match c.reference_mode with
  | .noRef => .ok Option.none
  | .keep_original => .ok (buildWrappedRef c (p.default_code.getD ""))
  | .product_id => .ok (buildWrappedRef c (toString p.id))
  | .supplier_ref => .ok (buildWrappedRef c (p.default_code.getD ""))
  | .custom_format =>
      if c.reference_custom_format ≠ "" then
        match formatSubst c.reference_custom_format (refSubst c p) with
        | some s => .ok (some s)
        | Option.none => .error "str.format failed"
      else .ok (buildWrappedRef c (p.default_code.getD ""))

/-! ## Warning detection (`CatalogSyncPreview._detect_warnings`) -/

/-- Floor of a fraction with positive denominator (`Int.fdiv` is floor
division). -/
def floorZ (q : PyFloat) : ℤ := q.num.fdiv q.den

/-- Round-half-to-even, the rounding used by Python's fixed point float
formatting. -/
def roundHalfEven (q : PyFloat) : ℤ :=
  let f := floorZ q
  let frac := q.sub (.ofInt f)
  if frac.blt ⟨1, 2⟩ then f
  else if (⟨1, 2⟩ : PyFloat).blt frac then f + 1
  else if f % 2 = 0 then f else f + 1

/-- Python `f'{q:.1f}'` on exact fractions (the source only formats
percentages strictly greater than 10, so only positive values reach
this). -/
def formatFix1 (q : PyFloat) : String :=
  let n := roundHalfEven (q.mul (.ofInt 10))
  let a := n.natAbs
  (if n < 0 then "-" else "") ++ toString (a / 10) ++ "." ++ toString (a % 10)

/-- Embeds `CatalogSyncPreview._detect_warnings` over a field-change map
`field → (old, new)`. `.ok Option.none` is the source's `False` return;
the error case models the `TypeError` Python would raise when comparing
a truthy non-numeric `old`/`new` (`old > 0`, `old - new`). -/
def detect_warnings (changes : List (String × PyVal × PyVal)) :
    Except String (Option String) :=
  let warnRes : Except String (List String) :=
    match List.lookup "standard_price" changes with
    | some (old, new) =>
        if pyTruthy old ∧ pyTruthy new then
          match pyToNum old with
          | .error e => .error e
          | .ok oldq =>
            if (PyFloat.ofInt 0).blt oldq then
              match pyToNum new with
              | .error e => .error e
              | .ok newq =>
                let decrease_pct := ((oldq.sub newq).div oldq).mul (.ofInt 100)
                if (PyFloat.ofInt 10).blt decrease_pct then
                  .ok [("Price decrease: " ++ formatFix1 decrease_pct ++ "%")]
                else .ok []
            else .ok []
        else .ok []
    | Option.none => .ok []
  match warnRes with
  | .error e => .error e
  | .ok warnings =>
      if warnings.isEmpty then .ok Option.none
      else .ok (some (String.intercalate " | " warnings))

/-! ## Diff / preview generation (`CatalogSyncPreview`) -/

/-- Lifecycle states of `catalog.sync.preview`. -/
inductive PreviewState where
  | draft
  | analyzing
  | ready
  | executing
  | done
  | cancelled
  deriving DecidableEq, Repr

/-- Classification values of `catalog.sync.change`. -/
inductive ChangeType where
  | create
  | update
  | skip
  deriving DecidableEq, Repr

/-- One `catalog.sync.change` record. `field_changes` is the decoded
JSON map `field → (old, new)`; of the variant-diff list only emptiness
is ever observed by the classification logic, so its entries are
abstracted to `Unit`. -/
structure Change where
  product_id : ℕ
  product_name : String
  change_type : ChangeType
  client_product_id : Option ℕ
  field_changes : List (String × PyVal × PyVal)
  variant_changes : List Unit
  has_warning : Bool
  warning_message : Option String
  is_excluded : Bool
  deriving DecidableEq, Repr

/-- The deterministic external identifier
`f'supplier_{connection.client_id.id}_product_{product.id}'`. -/
def externalId (clientId productId : ℕ) : String :=
  s!"supplier_{clientId}_product_{productId}"

/-- The remote XML-RPC surface the preview/executor code calls, with
each call's outcome an input: `authenticate` yields the uid (`.ok
Option.none` = falsy uid), `search` returns ids of remote
`product.template` records whose `default_code` equals the query,
`readRecord` returns a remote record's field values, and
`variantPreview` abstracts `_get_variant_preview_data` at its interface
(remote-derived variant diff entries; only emptiness is observed). -/
structure Remote where
  authenticate : Except String (Option ℕ)
  search : String → Except String (List ℕ)
  readRecord : ℕ → Except String (String → PyVal)
  variantPreview : ℕ → Option ℕ → Except String (List Unit)

/-- The remote `search` on the identifier field over an explicit record
list `(id, default_code)`. -/
def searchByCode (records : List (ℕ × String)) (code : String) : List ℕ :=
  (records.filter (fun rec => rec.2 = code)).map (fun rec => rec.1)

/-- Embeds `CatalogSyncPreview._create_update_change`: diff a matched remote
record against the mapped local values. -/
def create_update_change (r : Remote) (conn : Connection)
    (pf : String → Option PyFloat) (pi : String → Option ℤ)
    (product : Product) (client_product_id : ℕ) : Except String Change :=
  let active_mappings := conn.field_mapping_ids.filter
    (fun m => m.is_active && decide (m.sync_mode ≠ .create_only))
  -- `list(set(...))`: only membership in this list is ever used
  let fields_base :=
    ((active_mappings.map (fun m => m.target_field)).filter
      (fun t => t ≠ "categ_id")).dedup
  let target_fields_to_read := if fields_base.isEmpty then ["name"] else fields_base
  match r.readRecord client_product_id with
  | .error e => .error e
  | .ok clientRec =>
    -- `client_data.get(f)`: `None` for fields that were not read
    let clientGet : String → PyVal := fun f =>
      if f ∈ target_fields_to_read then clientRec f else .none
    let changes := active_mappings.foldl (fun acc m =>
      let value := resolve_value pf pi m (some product)
      let client_value := clientGet m.target_field
      if m.sync_mode = .if_empty ∧ pyTruthy client_value then acc
      else if pyEq value client_value = false then
        dictInsert acc m.target_field (client_value, value)
      else acc) []
    let has_changes := !changes.isEmpty
    match (if conn.sync_variants then
             r.variantPreview product.id (some client_product_id)
           else .ok []) with
    | .error e => .error e
    | .ok variant_data =>
      let has_variant_changes := !variant_data.isEmpty
      if has_changes || has_variant_changes then
        match detect_warnings changes with
        | .error e => .error e
        | .ok warning =>
          .ok { product_id := product.id, product_name := product.name,
                change_type := .update, client_product_id := some client_product_id,
                field_changes := changes, variant_changes := variant_data,
                has_warning := warning.isSome, warning_message := warning,
                is_excluded := false }
      else
        .ok { product_id := product.id, product_name := product.name,
              change_type := .skip, client_product_id := some client_product_id,
              field_changes := [], variant_changes := [],
              has_warning := false, warning_message := Option.none,
              is_excluded := false }

/-- Embeds `CatalogSyncPreview._create_create_change`: the full field-change
set against an `old = None` baseline, plus the generated human reference
unless reference mode is `'none'`. -/
def create_create_change (r : Remote) (conn : Connection)
    (pf : String → Option PyFloat) (pi : String → Option ℤ)
    (product : Product) : Except String Change :=
  let changes0 := (conn.field_mapping_ids.filter (fun m => m.is_active)).foldl
    (fun acc m =>
      -- Skip default_code if reference generation is configured
      if m.target_field = "default_code" ∧ conn.reference_mode ≠ .keep_original then acc
      else dictInsert acc m.target_field (PyVal.none, resolve_value pf pi m (some product)))
    []
  match generate_product_reference conn product with
  | .error e => .error e
  | .ok generated_ref =>
    let changes := match generated_ref with
      | some ref => dictInsert changes0 "default_code" (PyVal.none, .str ref)
      | Option.none => changes0
    match (if conn.sync_variants then r.variantPreview product.id Option.none
           else .ok []) with
    | .error e => .error e
    | .ok variant_data =>
      .ok { product_id := product.id, product_name := product.name,
            change_type := .create, client_product_id := Option.none,
            field_changes := changes, variant_changes := variant_data,
            has_warning := false, warning_message := Option.none,
            is_excluded := false }

/-- The per-product body of `action_generate_preview`'s loop: search the
remote by the external identifier; first match → update/skip diff, no
match → create. -/
def previewChangeFor (r : Remote) (conn : Connection)
    (pf : String → Option PyFloat) (pi : String → Option ℤ)
    (product : Product) : Except String Change :=
  match r.search (externalId conn.client_id product.id) with
  | .error e => .error e
  | .ok (cid :: _) => create_update_change r conn pf pi product cid
  | .ok [] => create_create_change r conn pf pi product

/-- The sequential per-product loop of `action_generate_preview`; an
exception for any product aborts the whole analysis. -/
def forEachProduct (r : Remote) (conn : Connection)
    (pf : String → Option PyFloat) (pi : String → Option ℤ) :
    List Product → Except String (List Change)
  | [] => .ok []
  | p :: rest =>
      match previewChangeFor r conn pf pi p with
      | .error e => .error e
      | .ok ch =>
          match forEachProduct r conn pf pi rest with
          | .error e => .error e
          | .ok l => .ok (ch :: l)

/-- The diagnostic `UserError` text raised on a falsy remote uid. -/
def authFailureMessage : String :=
  "Authentication failed - Unable to connect to your Odoo.\n\n" ++
  "Possible causes:\n" ++
  "• Your API Key may be invalid or expired\n" ++
  "• The Username may be incorrect\n" ++
  "• The Database name may be wrong\n\n" ++
  "Please:\n" ++
  "1. Go to the Connection Setup page\n" ++
  "2. Verify your API Key is still valid\n" ++
  "3. Generate a new API Key if needed\n" ++
  "4. Test the connection again"

/-- Observable outcome of one `action_generate_preview` call: the
sequence of `state` assignments it performs, and either the change
records created (success) or the surfaced error (failure). -/
structure PreviewRun where
  stateWrites : List PreviewState
  outcome : Except String (List Change)

/-- Embeds `CatalogSyncPreview.action_generate_preview`: raise before any state
change when no products are selected; otherwise set `analyzing`, run the
batch under one authentication, and end in `ready` — any exception
instead resets the state to `draft` and re-raises wrapped in `Preview
generation failed: `. -/
def action_generate_preview (r : Remote) (conn : Connection)
    (pf : String → Option PyFloat) (pi : String → Option ℤ)
    (products : List Product) : PreviewRun :=
  if products.isEmpty then ⟨[], .error "No products selected for sync"⟩
  else
    let body : Except String (List Change) :=
      match r.authenticate with
      | .error e => .error e
      | .ok Option.none => .error authFailureMessage
      | .ok (some _) => forEachProduct r conn pf pi products
    match body with
    | .ok chs => ⟨[.analyzing, .ready], .ok chs⟩
    | .error e => ⟨[.analyzing, .draft], .error ("Preview generation failed: " ++ e)⟩

/-- Written from the spec's matching-algorithm wording, for comparison
with the source's search: a remote record list matches a product when
some record's identifier field equals the external-identifier pattern OR
equals the locally-generated human reference for that product. -/
def specMatchedByEitherIdentifier (records : List (ℕ × String))
    (conn : Connection) (p : Product) : Bool :=
  (records.any (fun rec => rec.2 = externalId conn.client_id p.id)) ||
  (match generate_product_reference conn p with
   | .ok (some ref) => records.any (fun rec => rec.2 = ref)
   | _ => false)

/-! ## Sync executor (`CatalogSyncPreview._execute_create` /
    `_execute_update`) -/

/-- Truthiness of an optional string field (`some ""` and `Option.none`
both read falsy, like `''`/`False` in Python). -/
def optStrTruthy : Option String → Bool
  | some s => s ≠ ""
  | Option.none => false

/-- Python `setdefault(k, v)` on an association list. -/
def setDefault (m : List (String × PyVal)) (k : String) (v : PyVal) :
    List (String × PyVal) :=
  if m.any (fun kv => kv.1 = k) then m else m ++ [(k, v)]

/-- The remote-create payload built by
`CatalogSyncPreview._execute_create` from a change's field-change map:
backfilled `type`/`sale_ok`/`purchase_ok` defaults, guaranteed non-empty
`name`, the external-identifier fallback for an absent/falsy
`default_code`, and optional category/image entries. `mappedCateg` is
the Reconciler's result (`Option.none` when the product has no category
or `_map_category` returned nothing). -/
def execute_create_values (conn : Connection) (change : Change)
    (product : Product) (mappedCateg : Option ℕ) : List (String × PyVal) :=
  let values := change.field_changes.map (fun fc => (fc.1, fc.2.2))
  let values := setDefault values "type" (.str "consu")
  let values := setDefault values "sale_ok" (.bool true)
  let values := setDefault values "purchase_ok" (.bool true)
  let values :=
    match values.lookup "name" with
    | some v => if pyTruthy v then values else dictInsert values "name" (.str product.name)
    | Option.none => dictInsert values "name" (.str product.name)
  let external_id := externalId conn.client_id product.id
  -- If no default_code was set (reference_mode = 'none'), fall back to
  -- the external id so the record can still be found/updated later
  let values :=
    match values.lookup "default_code" with
    | some v => if pyTruthy v then values else dictInsert values "default_code" (.str external_id)
    | Option.none => dictInsert values "default_code" (.str external_id)
  let values :=
    match mappedCateg with
    | some cid => dictInsert values "categ_id" (.num (.ofInt cid))
    | Option.none => values
  if conn.include_images ∧ optStrTruthy product.image_1920 then
    dictInsert values "image_1920" (.str (product.image_1920.getD ""))
  else values

/-- Embeds `CatalogSyncPreview._execute_update`. Here `client_default_code` is the
re-read identifier field of the remote record (the safety-check read)
and `client_image` the remote image read in the preserve branch. The
result is the write payload sent to the remote, `Option.none` when no
write is issued; `.error` is the raised safety-check `UserError`. -/
def execute_update (conn : Connection) (product : Product) (change : Change)
    (client_default_code : PyVal) (client_image : PyVal) :
    Except String (Option (List (String × PyVal))) :=
  let expected_external_id := externalId conn.client_id product.id
  -- PROTECTION: only update if the record carries our external ID
  if pyEq client_default_code (.str expected_external_id) = false then
    .error ("Safety check failed: Product " ++ product.name ++
      " does not have our external ID. Refusing to update to prevent modifying client's own products.")
  else
    let values := change.field_changes.map (fun fc => (fc.1, fc.2.2))
    let values :=
      if conn.include_images ∧ conn.preserve_client_images then
        if optStrTruthy product.image_1920 ∧ pyTruthy client_image = false then
          dictInsert values "image_1920" (.str (product.image_1920.getD ""))
        else values
      else if conn.include_images then
        if optStrTruthy product.image_1920 then
          dictInsert values "image_1920" (.str (product.image_1920.getD ""))
        else values
      else values
    if values.isEmpty then .ok Option.none else .ok (some values)

/-! ## Batch execution (`action_execute_sync`) and the background worker
    (`_run_sync_thread`) -/

/-- The per-run counters and error list. -/
structure Stats where
  created : ℕ
  updated : ℕ
  skipped : ℕ
  errors : ℕ
  errorList : List String
  deriving DecidableEq, Repr

def initStats : Stats := ⟨0, 0, 0, 0, []⟩

/-- One iteration of the executor loop's `try` body: the `Option String`
is the exception (if any) raised by the remote create/update for this
change; `skip` changes perform no remote call. A raised exception is
caught, recorded against the product, and the loop continues. -/
def execStep (st : Stats) (c : Change) (oe : Option String) : Stats :=
  match c.change_type, oe with
  | .skip, _ => { st with skipped := st.skipped + 1 }
  | .create, Option.none => { st with created := st.created + 1 }
  | .update, Option.none => { st with updated := st.updated + 1 }
  | _, some e => { st with errors := st.errors + 1,
                           errorList := st.errorList ++ [c.product_name ++ ": " ++ e] }

/-- Statuses of `catalog.sync.history`; `partOk` is the source's
`'partial'`. -/
inductive HistoryStatus where
  | success
  | partOk
  | error
  deriving DecidableEq, Repr

/-- The status computation shared by both executors: `success` with zero
errors, else `partial` when anything was created or updated, else
`error`. -/
def statusOf (st : Stats) : HistoryStatus :=
  if st.errors = 0 then .success
  else if 0 < st.created + st.updated then .partOk
  else .error

/-- Observable outcome of a completed foreground run: the history record
fields and the preview's final state. -/
structure ExecOutcome where
  stats : Stats
  historyStatus : HistoryStatus
  historyErrorMessage : Option String
  finalState : PreviewState
  deriving Repr

/-- Embeds `CatalogSyncPreview.action_execute_sync`. Inputs pair each change
with its remote-call outcome; excluded changes are filtered out, each
failure is isolated to its product, and the run ends with a history
record and state `done`. The error case carries the state the preview is
left in (`ready` after the outer except, the unchanged starting state
for the guard) and the raised message. -/
def action_execute_sync (st0 : PreviewState) (authOk : Bool)
    (items : List (Change × Option String)) :
    Except (PreviewState × String) ExecOutcome :=
  if st0 ≠ .ready then .error (st0, "Preview must be analyzed first")
  else if !authOk then .error (.ready, "Sync failed: Authentication failed")
  else
    let st := (items.filter (fun ce => !ce.1.is_excluded)).foldl
      (fun s ce => execStep s ce.1 ce.2) initStats
    .ok { stats := st, historyStatus := statusOf st,
          historyErrorMessage :=
            if st.errorList.isEmpty then Option.none
            else some (String.intercalate "\n" st.errorList),
          finalState := .done }

/-- Embeds `CatalogSyncPreview.action_cancel_sync`: only an `executing` preview
is flipped to `cancelled` (with a transient message). -/
def action_cancel_sync (st : PreviewState) : PreviewState × Option String :=
  if st = .executing then (.cancelled, some "Cancelling...") else (st, Option.none)

/-- The background worker's per-product loop. `persisted n` is the
preview state returned by the n-th raw-SQL re-read (`SELECT state FROM
catalog_sync_preview ...`); one read happens before each product, and a
`cancelled` read breaks out before processing that product. Returns the
stats, the number of reads consumed, and whether the loop broke on a
cancellation read. -/
def syncLoop (persisted : ℕ → PreviewState) :
    List (Change × Option String) → ℕ → Stats → Stats × ℕ × Bool
  | [], n, st => (st, n, false)
  | ce :: rest, n, st =>
      if persisted n = .cancelled then (st, n + 1, true)
      else syncLoop persisted rest (n + 1) (execStep st ce.1 ce.2)

/-- Observable outcome of `_run_sync_thread`: either the fatal-error
path (transaction rolled back, preview returned to `ready` with the
error captured) or a finalized run with its history fields and the
preview's last progress message. -/
inductive ThreadResult where
  | fatal (errorMessage : String)
  | finished (stats : Stats) (historyStatus : HistoryStatus)
      (historyErrorMessage : Option String) (sync_message : String)
  deriving DecidableEq, Repr

/-- Embeds `CatalogSyncPreview._run_sync_thread` after the preview has been
loaded: authenticate, process the non-excluded changes one at a time
re-reading the persisted state before each, re-read once more after the
loop, and finalize a history record; a cancelled run keeps its partial
counters and reports `partial` or `error` depending on whether anything
was created or updated. -/
def run_sync_thread (persisted : ℕ → PreviewState) (authOk : Bool)
    (items : List (Change × Option String)) : ThreadResult :=
  if !authOk then .fatal "Authentication failed"
  else
    let changes := items.filter (fun ce => !ce.1.is_excluded)
    let res := syncLoop persisted changes 0 initStats
    let st := res.1
    let was_cancelled := decide (persisted res.2.1 = .cancelled)
    .finished st
      (if was_cancelled then
         (if 0 < st.created + st.updated then .partOk else .error)
       else statusOf st)
      (if !st.errorList.isEmpty then some (String.intercalate "\n" st.errorList)
       else if was_cancelled then some "Import cancelled by user" else Option.none)
      (if was_cancelled then "Import cancelled by user" else "Import complete!")

/-! ## Shared concrete instances used by the theorems below -/

/-- Parser stub: every string fails `float(...)`. -/
def pfNone : String → Option PyFloat := fun _ => Option.none

/-- Parser stub: every string fails `int(...)`. -/
def piNone : String → Option ℤ := fun _ => Option.none

/-- End-to-end scenario C connection: `custom_format` with format
`{prefix}{ref}-{id}` and prefix `CAT`. -/
def connScenarioC : Connection :=
  { client_id := 1, reference_mode := .custom_format,
    reference_prefix_val := "CAT", reference_suffix := "",
    reference_separator := "", reference_custom_format := "\x7bprefix\x7d\x7bref\x7d-\x7bid\x7d",
    field_mapping_ids := [], sync_variants := false,
    include_images := false, preserve_client_images := false }

/-- End-to-end scenario C product: code `TEST001`, id `42`. -/
def prodScenarioC : Product :=
  { id := 42, default_code := some "TEST001", name := "Test Product 1",
    image_1920 := Option.none, attr := fun _ => .none }

/-! ## C4 — reference generation -/

/-- Claim C4: Reference generation is a pure, deterministic function of
the connection's reference settings and the product's code/id; `'none'`
mode always returns the falsy no-reference result; `custom_format` mode
with a non-empty format returns exactly the substituted format string
with no additional prefix/suffix/separator wrapping; and scenario C
(`{prefix}{ref}-{id}`, prefix `CAT`, code `TEST001`, id 42) yields
exactly `CATTEST001-42`. -/
theorem C4_reference_generation (c c' : Connection) (p p' : Product)
    (hmode : c.reference_mode = c'.reference_mode)
    (hpre : c.reference_prefix_val = c'.reference_prefix_val)
    (hsuf : c.reference_suffix = c'.reference_suffix)
    (hsep : c.reference_separator = c'.reference_separator)
    (hfmt : c.reference_custom_format = c'.reference_custom_format)
    (hcode : p.default_code = p'.default_code)
    (hid : p.id = p'.id) :
    generate_product_reference c p = generate_product_reference c' p' ∧
    (∀ c0 : Connection, ∀ p0 : Product, c0.reference_mode = .noRef →
       generate_product_reference c0 p0 = .ok Option.none) ∧
    (∀ c0 : Connection, ∀ p0 : Product, ∀ s : String,
       c0.reference_mode = .custom_format →
       c0.reference_custom_format ≠ "" →
       formatSubst c0.reference_custom_format (refSubst c0 p0) = some s →
       generate_product_reference c0 p0 = .ok (some s)) ∧
    generate_product_reference connScenarioC prodScenarioC =
      .ok (some "CATTEST001-42") := by
  have hsub : refSubst c p = refSubst c' p' := by
    funext name
    simp only [refSubst, hpre, hsuf, hsep, hcode, hid]
  refine ⟨?_, ?_, ?_, ?_⟩
  · simp only [generate_product_reference, buildWrappedRef,
      hmode, hpre, hsuf, hsep, hfmt, hcode, hid, hsub]
  · intro c0 p0 h
    simp [generate_product_reference, h]
  · intro c0 p0 s hm hne hs
    simp [generate_product_reference, hm, hne, hs]
  · decide

/-- Witness for C4: the theorem applied at scenario C itself. -/
theorem C4_reference_generation_witness :
    generate_product_reference connScenarioC prodScenarioC =
      .ok (some "CATTEST001-42") :=
  (C4_reference_generation connScenarioC connScenarioC prodScenarioC
    prodScenarioC rfl rfl rfl rfl rfl rfl rfl).2.2.2

/-! ## C5 — field-mapping value resolution order -/

/-- Claim C5: `_resolve_value` follows exactly the documented order:
(1) `always` policy with a configured default returns the typed default
regardless of the source; (2) the `_none` sentinel returns the typed
default or nothing; (3) otherwise the product attribute named by
`source_field` is read; (4) under `if_source_empty` a falsy read value
with a configured default is substituted by the typed default; (5) with
coefficient application enabled and a numeric value, the value is
multiplied by the coefficient. -/
theorem C5_resolve_value_order (pf : String → Option PyFloat)
    (pi : String → Option ℤ) (m : FieldMapping) (p : Product) :
    (m.default_value_apply = .always ∧ m.default_value ≠ "" →
       resolve_value pf pi m (some p) = convert_default_value pf pi m) ∧
    (¬(m.default_value_apply = .always ∧ m.default_value ≠ "") →
       m.source_field = "_none" →
       resolve_value pf pi m (some p) =
         (if m.default_value ≠ "" then convert_default_value pf pi m
          else .bool false)) ∧
    (¬(m.default_value_apply = .always ∧ m.default_value ≠ "") →
       m.source_field ≠ "_none" →
       m.default_value_apply = .if_source_empty →
       pyTruthy (p.attr m.source_field) = false →
       m.default_value ≠ "" →
       resolve_value pf pi m (some p) = convert_default_value pf pi m) ∧
    (¬(m.default_value_apply = .always ∧ m.default_value ≠ "") →
       m.source_field ≠ "_none" →
       ¬(m.default_value_apply = .if_source_empty ∧
         pyTruthy (p.attr m.source_field) = false ∧ m.default_value ≠ "") →
       m.apply_coefficient = true →
       pyIsNumber (p.attr m.source_field) = true →
       resolve_value pf pi m (some p) =
         pyMulCoef (p.attr m.source_field) m.coefficient) ∧
    (¬(m.default_value_apply = .always ∧ m.default_value ≠ "") →
       m.source_field ≠ "_none" →
       ¬(m.default_value_apply = .if_source_empty ∧
         pyTruthy (p.attr m.source_field) = false ∧ m.default_value ≠ "") →
       ¬(m.apply_coefficient = true ∧ pyIsNumber (p.attr m.source_field) = true) →
       resolve_value pf pi m (some p) = p.attr m.source_field) := by
  refine ⟨?_, ?_, ?_, ?_, ?_⟩
  · intro h
    simp [resolve_value, h]
  · intro h1 h2
    simp [resolve_value, h1, h2]
  · intro h1 h2 h3 h4 h5
    simp [resolve_value, h1, h2, h3, h4, h5]
  · intro h1 h2 h3 h4 h5
    simp only [resolve_value]
    rw [if_neg h1, if_neg h2, if_neg h3, if_pos ⟨h4, h5⟩]
  · intro h1 h2 h3 h4
    simp only [resolve_value]
    rw [if_neg h1, if_neg h2, if_neg h3, if_neg h4]

/-- A mapping with `always` policy and a configured default on target
`name`. -/
def mappingAlwaysDefault : FieldMapping :=
  { source_field := "name", target_field := "name", sync_mode := .always,
    default_value := "DEFAULT", default_value_apply := .always,
    apply_coefficient := false, coefficient := .ofInt 1, is_active := true }

/-- A product whose `name` attribute is the non-empty value the mapping
must ignore. -/
def productWithName : Product :=
  { id := 7, default_code := some "TEST001", name := "Real Name",
    image_1920 := Option.none,
    attr := fun f => if f = "name" then .str "Real Name" else .none }

/-- Witness for C5: the `always`-policy clause applied to a product
whose source field holds a non-empty value — the typed default wins. -/
theorem C5_resolve_value_order_witness :
    resolve_value pfNone piNone mappingAlwaysDefault (some productWithName) =
      .str "DEFAULT" :=
  ((C5_resolve_value_order pfNone piNone mappingAlwaysDefault
      productWithName).1 (by decide)).trans (by decide)

/-! ## C9 — totality of default-value conversion -/

/-- Claim C9: `_convert_default_value` never raises: whatever the parsing
primitives do, a `float`-typed default that fails to parse becomes
`0.0`, an `integer`-typed default that fails to parse becomes the
zero/false value, a `boolean`-typed default is `True` exactly for
`'true'/'1'/'yes'/'oui'` case-insensitively, and every conversion
returns some value. -/
theorem C9_convert_default_total (pf : String → Option PyFloat)
    (pi : String → Option ℤ) (m : FieldMapping) :
    (targetFieldType m.target_field = "float" → m.default_value ≠ "" →
       pf (pyStrip m.default_value) = Option.none →
       convert_default_value pf pi m = .num (.ofInt 0)) ∧
    (targetFieldType m.target_field = "integer" → m.default_value ≠ "" →
       pi (pyStrip m.default_value) = Option.none →
       convert_default_value pf pi m = .bool false) ∧
    (targetFieldType m.target_field = "boolean" → m.default_value ≠ "" →
       convert_default_value pf pi m =
         .bool (pyLower (pyStrip m.default_value) = "true" ∨
                pyLower (pyStrip m.default_value) = "1" ∨
                pyLower (pyStrip m.default_value) = "yes" ∨
                pyLower (pyStrip m.default_value) = "oui")) ∧
    (∃ v : PyVal, convert_default_value pf pi m = v) := by
  refine ⟨?_, ?_, ?_, ⟨_, rfl⟩⟩
  · intro h1 h2 h3
    simp [convert_default_value, h1, h2, h3]
  · intro h1 h2 h3
    simp [convert_default_value, h1, h2, h3]
  · intro h1 h2
    simp [convert_default_value, h1, h2]

/-- A `standard_price` (float-typed) mapping whose default does not
parse as a float. -/
def mappingBadFloatDefault : FieldMapping :=
  { source_field := "_none", target_field := "standard_price",
    sync_mode := .always, default_value := "not-a-number",
    default_value_apply := .always, apply_coefficient := false,
    coefficient := .ofInt 1, is_active := true }

/-- Witness for C9: the failing-float clause applied to a concrete
mapping — conversion yields `0.0` instead of raising. -/
theorem C9_convert_default_total_witness :
    convert_default_value pfNone piNone mappingBadFloatDefault =
      .num (.ofInt 0) :=
  (C9_convert_default_total pfNone piNone mappingBadFloatDefault).1
    (by decide) (by decide) rfl

/-! ## C8 / C10 — warning detection -/

/-- Claim C8: Warning detection flags a `standard_price` decrease strictly
greater than 10% of the old value: 100 → 80 yields a warning containing
`20.0%`, 100 → 95 yields none, a map without a `standard_price` entry
yields none, any integer-priced decrease of at most 10% yields none, and
a produced warning string is the `" | "`-join of the warning list. -/
theorem C8_warning_detection :
    detect_warnings [("standard_price", (.num (.ofInt 100), .num (.ofInt 80)))] =
      .ok (some "Price decrease: 20.0%") ∧
    containsSub "Price decrease: 20.0%" "20.0%" = true ∧
    detect_warnings [("standard_price", (.num (.ofInt 100), .num (.ofInt 95)))] =
      .ok Option.none ∧
    (∀ ch : List (String × PyVal × PyVal),
       List.lookup "standard_price" ch = Option.none →
       detect_warnings ch = .ok Option.none) ∧
    (∀ old new : ℤ, 0 < old → (old - new) * 100 ≤ 10 * old →
       detect_warnings
         [("standard_price", (.num (.ofInt old), .num (.ofInt new)))] =
         .ok Option.none) ∧
    (∀ ch : List (String × PyVal × PyVal), ∀ w : String,
       detect_warnings ch = .ok (some w) →
       w = String.intercalate " | " [w]) := by
  refine ⟨by decide, by decide, by decide, ?_, ?_, ?_⟩
  · intro ch h
    simp [detect_warnings, h]
  · intro old new h0 hle
    by_cases hnew : new = 0
    · subst hnew
      simp [detect_warnings, pyTruthy, PyFloat.beq, PyFloat.ofInt]
    · have ho : old ≠ 0 := by omega
      have hTold : pyTruthy (.num (.ofInt old)) = true := by
        simp [pyTruthy, PyFloat.beq, PyFloat.ofInt, ho]
      have hTnew : pyTruthy (.num (.ofInt new)) = true := by
        simp [pyTruthy, PyFloat.beq, PyFloat.ofInt, hnew]
      have h0blt : (PyFloat.ofInt 0).blt (.ofInt old) = true := by
        simp only [PyFloat.blt, PyFloat.ofInt]
        simp
        omega
      have hblt : (PyFloat.ofInt 10).blt
          ((((PyFloat.ofInt old).sub (.ofInt new)).div (.ofInt old)).mul
            (.ofInt 100)) = false := by
        simp only [PyFloat.ofInt, PyFloat.sub, PyFloat.div, PyFloat.mul,
          PyFloat.mkSigned, PyFloat.blt]
        split_ifs with hneg
        · omega
        · simp only [decide_eq_false_iff_not, not_lt]
          nlinarith [h0, hle]
      simp [detect_warnings, pyToNum, hTold, hTnew, h0blt, hblt]
  · intro ch w h
    cases w
    rfl

/-- Witness for C8: the no-`standard_price`-entry clause applied to a
concrete map of other fields. -/
theorem C8_warning_detection_witness :
    detect_warnings [("name", (.str "a", .str "b"))] = .ok Option.none :=
  C8_warning_detection.2.2.2.1 [("name", (.str "a", .str "b"))] rfl

/-- Claim C10: Warning detection requires both the old and the new
`standard_price` value to be truthy (non-zero) before computing the
percentage: a new value of zero, an old value of zero, or an absent
(`None`) old value never produces a price-decrease warning — in
particular a 100% drop from 100 to exactly 0 yields no warning. -/
theorem C10_zero_price_never_warns :
    (∀ ch : List (String × PyVal × PyVal), ∀ old : PyVal, ∀ q : PyFloat,
       List.lookup "standard_price" ch = some (old, .num q) →
       q.beq (.ofInt 0) = true →
       detect_warnings ch = .ok Option.none) ∧
    (∀ ch : List (String × PyVal × PyVal), ∀ nv : PyVal, ∀ q : PyFloat,
       List.lookup "standard_price" ch = some (.num q, nv) →
       q.beq (.ofInt 0) = true →
       detect_warnings ch = .ok Option.none) ∧
    (∀ ch : List (String × PyVal × PyVal), ∀ nv : PyVal,
       List.lookup "standard_price" ch = some (PyVal.none, nv) →
       detect_warnings ch = .ok Option.none) ∧
    detect_warnings [("standard_price", (.num (.ofInt 100), .num (.ofInt 0)))] =
      .ok Option.none := by
  refine ⟨?_, ?_, ?_, by decide⟩
  · intro ch old q h hq
    simp [detect_warnings, h, pyTruthy, hq]
  · intro ch nv q h hq
    simp [detect_warnings, h, pyTruthy, hq]
  · intro ch nv h
    simp [detect_warnings, h, pyTruthy]

/-- Witness for C10: the zero-new-value clause applied to the concrete
drop 100 → 0. -/
theorem C10_zero_price_never_warns_witness :
    detect_warnings [("standard_price", (.num (.ofInt 100), .num (.ofInt 0)))] =
      .ok Option.none :=
  C10_zero_price_never_warns.1
    [("standard_price", (.num (.ofInt 100), .num (.ofInt 0)))]
    (.num (.ofInt 100)) (.ofInt 0) rfl (by decide)

/-! ## C1 / C2 — identifier matching and the update safety check -/

/-- A plain active name→name mapping (no defaults, no coefficient). -/
def mappingName : FieldMapping :=
  { source_field := "name", target_field := "name", sync_mode := .always,
    default_value := "", default_value_apply := .never,
    apply_coefficient := false, coefficient := .ofInt 1, is_active := true }

/-- A `keep_original` connection (no prefix/suffix), client id 1, with
the name mapping. -/
def connC1 : Connection :=
  { client_id := 1, reference_mode := .keep_original,
    reference_prefix_val := "", reference_suffix := "",
    reference_separator := "", reference_custom_format := "",
    field_mapping_ids := [mappingName], sync_variants := false,
    include_images := false, preserve_client_images := false }

/-- Local product id 1 with code `TEST001`. -/
def prodC1 : Product :=
  { id := 1, default_code := some "TEST001", name := "Test Product 1",
    image_1920 := Option.none,
    attr := fun f => if f = "name" then .str "Test Product 1" else .none }

/-- Remote record state: one record (id 999) whose identifier field is
the generated human reference `TEST001` — i.e. a record this connection
previously created under `keep_original` mode. -/
def remoteRecordsC1 : List (ℕ × String) := [(999, "TEST001")]

/-- The remote interface over `remoteRecordsC1` with successful
authentication. -/
def remoteC1 : Remote :=
  { authenticate := .ok (some 1),
    search := fun code => .ok (searchByCode remoteRecordsC1 code),
    readRecord := fun _ => .ok (fun _ => .none),
    variantPreview := fun _ _ => .ok [] }

/-- Claim C1, failing input: The remote record is matched by the
locally-generated human reference (`TEST001`) — the spec's
either-identifier matching applies — yet the preview's only search, by
the external-identifier pattern `supplier_1_product_1`, finds nothing,
so the product is classified `create`; executing that change would
create a second remote record carrying the same `default_code`
`TEST001`. -/
theorem C1_reference_matched_product_classified_create :
    specMatchedByEitherIdentifier remoteRecordsC1 connC1 prodC1 = true ∧
    generate_product_reference connC1 prodC1 = .ok (some "TEST001") ∧
    searchByCode remoteRecordsC1 (externalId connC1.client_id prodC1.id) = [] ∧
    (previewChangeFor remoteC1 connC1 pfNone piNone prodC1).map
      (fun ch => ch.change_type) = .ok .create ∧
    (previewChangeFor remoteC1 connC1 pfNone piNone prodC1).map
      (fun ch => List.lookup "default_code"
        (execute_create_values connC1 ch prodC1 Option.none)) =
      .ok (some (.str "TEST001")) := by
  decide

/-- An update change for `prodC1` pointing at remote record 888. -/
def changeC2 : Change :=
  { product_id := 1, product_name := "Test Product 1",
    change_type := .update, client_product_id := some 888,
    field_changes := [("name", (.str "Old Name", .str "Test Product 1"))],
    variant_changes := [], has_warning := false,
    warning_message := Option.none, is_excluded := false }

/-- Claim C2, failing input: The safety-check read returns exactly the
expected human reference `TEST001` for this (connection, product) pair,
but `_execute_update` compares only against the external-identifier
pattern and raises the safety-check failure instead of proceeding; with
the pattern itself the update does proceed and writes the payload. -/
theorem C2_safety_check_rejects_human_reference :
    generate_product_reference connC1 prodC1 = .ok (some "TEST001") ∧
    execute_update connC1 prodC1 changeC2 (.str "TEST001") .none =
      .error ("Safety check failed: Product Test Product 1 does not have our external ID. Refusing to update to prevent modifying client's own products.") ∧
    containsSub "Safety check failed: Product Test Product 1 does not have our external ID. Refusing to update to prevent modifying client's own products."
      "Safety check failed" = true ∧
    execute_update connC1 prodC1 changeC2
        (.str (externalId connC1.client_id prodC1.id)) .none =
      .ok (some [("name", .str "Test Product 1")]) := by
  decide

/-! ## C6 — per-product error isolation and aggregate status -/

/-- A create-type item whose remote call succeeded. -/
def isCreateOk (ce : Change × Option String) : Bool :=
  decide (ce.1.change_type = .create) && ce.2.isNone

/-- An update-type item whose remote call succeeded. -/
def isUpdateOk (ce : Change × Option String) : Bool :=
  decide (ce.1.change_type = .update) && ce.2.isNone

/-- A skip-type item (no remote call is made). -/
def isSkipChange (ce : Change × Option String) : Bool :=
  decide (ce.1.change_type = .skip)

/-- A create/update item whose remote call raised. -/
def isErrorItem (ce : Change × Option String) : Bool :=
  decide (ce.1.change_type ≠ .skip) && ce.2.isSome

/-- The error-list entry recorded for a failed item
(`f"{change.product_name}: {e}"`), if any. -/
def errEntry (ce : Change × Option String) : Option String :=
  match ce.1.change_type, ce.2 with
  | .skip, _ => Option.none
  | _, some e => some (ce.1.product_name ++ ": " ++ e)
  | _, Option.none => Option.none

/-- Characterization of the executor loop's fold: every item is
processed and tallied, independent of earlier failures. -/
theorem execStep_foldl_spec (l : List (Change × Option String)) (st : Stats) :
    l.foldl (fun s ce => execStep s ce.1 ce.2) st =
      { created := st.created + l.countP isCreateOk,
        updated := st.updated + l.countP isUpdateOk,
        skipped := st.skipped + l.countP isSkipChange,
        errors := st.errors + l.countP isErrorItem,
        errorList := st.errorList ++ l.filterMap errEntry } := by
  induction l generalizing st with
  | nil => simp
  | cons ce t ih =>
      obtain ⟨c, oe⟩ := ce
      rw [List.foldl_cons, ih]
      cases hc : c.change_type <;> cases he : oe <;>
        simp [execStep, hc, he, isCreateOk, isUpdateOk, isSkipChange,
          isErrorItem, errEntry, List.countP_cons, List.filterMap_cons,
          Stats.mk.injEq, List.append_assoc,
          Nat.add_comm, Nat.add_assoc, Nat.add_left_comm]

/-- Claim C6: Executing a reviewed batch processes every non-excluded
change even when some fail: each failure is recorded as that product's
`name: error` entry in the error list and processing continues, the
final counters tally the whole batch, and the aggregate status is
`success` exactly when no error occurred, `partial` exactly when at
least one product was created or updated and at least one error
occurred, and `error` exactly when errors occurred and nothing was
created or updated. -/
theorem C6_error_isolation_and_status (items : List (Change × Option String)) :
    let nx := items.filter (fun ce => !ce.1.is_excluded)
    let st : Stats := ⟨nx.countP isCreateOk, nx.countP isUpdateOk,
      nx.countP isSkipChange, nx.countP isErrorItem, nx.filterMap errEntry⟩
    action_execute_sync .ready true items =
      .ok { stats := st, historyStatus := statusOf st,
            historyErrorMessage :=
              if st.errorList.isEmpty then Option.none
              else some (String.intercalate "\n" st.errorList),
            finalState := .done } ∧
    (statusOf st = .success ↔ st.errors = 0) ∧
    (statusOf st = .partOk ↔ st.errors ≠ 0 ∧ 0 < st.created + st.updated) ∧
    (statusOf st = .error ↔ st.errors ≠ 0 ∧ st.created + st.updated = 0) := by
  intro nx st
  refine ⟨?_, ?_, ?_, ?_⟩
  · simp only [action_execute_sync]
    rw [if_neg (by decide), if_neg (by decide)]
    rw [execStep_foldl_spec]
    simp [initStats]
  · simp only [statusOf]
    split_ifs with h1 h2
    · simp [h1]
    · simp [h1]
    · simp [h1]
  · simp only [statusOf]
    split_ifs with h1 h2
    · simp [h1]
    · simp [h1, h2]
    · simp [h1, h2]
  · simp only [statusOf]
    split_ifs with h1 h2
    · simp [h1]
    · exact ⟨fun h => absurd h (by simp), fun h => absurd h.2 (by omega)⟩
    · exact ⟨fun _ => ⟨h1, by omega⟩, fun _ => rfl⟩

/-! ## C3 — cooperative cancellation in the background worker -/

/-- If the persisted state reads `cancelled` for the first time at the
k-th per-product checkpoint (k within the list), the loop stops there:
only the first k items are processed and k+1 reads were consumed. -/
theorem syncLoop_cancel_at (persisted : ℕ → PreviewState) :
    ∀ (l : List (Change × Option String)) (k n : ℕ) (st : Stats),
    (∀ j < k, persisted (n + j) ≠ .cancelled) →
    persisted (n + k) = .cancelled →
    k < l.length →
    syncLoop persisted l n st =
      ((l.take k).foldl (fun s ce => execStep s ce.1 ce.2) st, n + k + 1, true) := by
  intro l
  induction l with
  | nil =>
      intro k n st _ _ hlt
      simp at hlt
  | cons ce t ih =>
      intro k n st hbefore hk hlt
      cases k with
      | zero =>
          simp only [Nat.add_zero] at hk
          simp [syncLoop, hk]
      | succ k' =>
          have h0 : persisted n ≠ .cancelled := by
            have := hbefore 0 (Nat.succ_pos k')
            simpa using this
          have step := ih k' (n + 1) (execStep st ce.1 ce.2)
            (fun j hj => by
              have := hbefore (j + 1) (Nat.succ_lt_succ hj)
              simpa [Nat.add_comm, Nat.add_assoc, Nat.add_left_comm] using this)
            (by
              have : n + 1 + k' = n + (k' + 1) := by omega
              rw [this]; exact hk)
            (by simpa using Nat.lt_of_succ_lt_succ hlt)
          simp only [syncLoop, List.take_succ_cons, List.foldl_cons]
          rw [if_neg h0, step]
          simp only [Prod.mk.injEq]
          exact ⟨trivial, by omega, trivial⟩

/-- Claim C3: When the background worker's raw-SQL state re-read first
returns `cancelled` before the k-th non-excluded product (and the
persisted state stays `cancelled` from then on), the worker processes no
further product: exactly the first k items are tallied, the preview's
final message is `Import cancelled by user`, and the finalized history
record has status `partial` when at least one product was created or
updated before cancellation and `error` when none was, with its error
message reflecting the cancellation when no per-product error text
exists. -/
theorem C3_cancellation_finalizes_partial_history
    (items : List (Change × Option String)) (persisted : ℕ → PreviewState)
    (k : ℕ)
    (hstab : ∀ i j : ℕ, i ≤ j → persisted i = .cancelled →
       persisted j = .cancelled)
    (hbefore : ∀ j < k, persisted j ≠ .cancelled)
    (hk : persisted k = .cancelled)
    (hlt : k < (items.filter (fun ce => !ce.1.is_excluded)).length) :
    let nx := items.filter (fun ce => !ce.1.is_excluded)
    let st : Stats := (nx.take k).foldl (fun s ce => execStep s ce.1 ce.2) initStats
    run_sync_thread persisted true items =
      .finished st
        (if 0 < st.created + st.updated then .partOk else .error)
        (if !st.errorList.isEmpty then some (String.intercalate "\n" st.errorList)
         else some "Import cancelled by user")
        "Import cancelled by user" := by
  intro nx st
  have hloop := syncLoop_cancel_at persisted nx k 0 initStats
    (fun j hj => by simpa using hbefore j hj)
    (by simpa using hk) hlt
  have hfin : persisted (k + 1) = .cancelled :=
    hstab k (k + 1) (by omega) hk
  simp only [run_sync_thread, Bool.not_true, Bool.false_eq_true, if_false]
  rw [show (items.filter (fun ce => !ce.1.is_excluded)) = nx from rfl, hloop]
  simp [hfin, st]

/-- Five create-type changes that all succeed remotely. -/
def changeOkCreate (i : ℕ) : Change :=
  { product_id := i, product_name := "P" ++ toString i,
    change_type := .create, client_product_id := Option.none,
    field_changes := [], variant_changes := [], has_warning := false,
    warning_message := Option.none, is_excluded := false }

def itemsScenarioD : List (Change × Option String) :=
  [(changeOkCreate 1, Option.none), (changeOkCreate 2, Option.none),
   (changeOkCreate 3, Option.none), (changeOkCreate 4, Option.none),
   (changeOkCreate 5, Option.none)]

/-- A persisted-state history: cancellation lands before the 4th
product (reads 0,1,2 see `executing`, later reads see `cancelled`). -/
def persistedScenarioD : ℕ → PreviewState :=
  fun n => if n < 3 then .executing else .cancelled

/-- Witness for C3: scenario D — cancellation with 2 of 5 products
unprocessed after three successful creates yields a `partial` history
whose message reflects the cancellation. -/
theorem C3_cancellation_finalizes_partial_history_witness :
    run_sync_thread persistedScenarioD true itemsScenarioD =
      .finished ⟨3, 0, 0, 0, []⟩ .partOk (some "Import cancelled by user")
        "Import cancelled by user" := by
  have h := C3_cancellation_finalizes_partial_history itemsScenarioD
    persistedScenarioD 3
    (by
      intro i j hij hi
      simp only [persistedScenarioD] at hi ⊢
      split at hi
      · exact absurd hi (by decide)
      · rw [if_neg (by omega)])
    (by intro j hj; interval_cases j <;> decide)
    (by decide) (by decide)
  exact h.trans (by decide)

/-! ## C7 — all-or-nothing preview generation -/

/-- The sequential preview loop yields one change record per product. -/
theorem forEachProduct_length (r : Remote) (conn : Connection)
    (pf : String → Option PyFloat) (pi : String → Option ℤ) :
    ∀ (l : List Product) (chs : List Change),
    forEachProduct r conn pf pi l = .ok chs → chs.length = l.length := by
  intro l
  induction l with
  | nil =>
      intro chs h
      simp only [forEachProduct] at h
      cases h
      rfl
  | cons p t ih =>
      intro chs h
      simp only [forEachProduct] at h
      cases hp : previewChangeFor r conn pf pi p with
      | error e => rw [hp] at h; cases h
      | ok ch =>
          rw [hp] at h
          cases hr : forEachProduct r conn pf pi t with
          | error e => rw [hr] at h; cases h
          | ok l2 =>
              rw [hr] at h
              cases h
              simp [ih l2 hr]

/-- A non-empty batch runs to exactly one of the two terminal shapes:
failure (state reset to `draft`, error wrapped) or success (state
`ready`, the loop's change list). -/
theorem action_generate_preview_cases (r : Remote) (conn : Connection)
    (pf : String → Option PyFloat) (pi : String → Option ℤ)
    (products : List Product) (hne : products.isEmpty = false) :
    (∃ e, action_generate_preview r conn pf pi products =
       ⟨[.analyzing, .draft], .error ("Preview generation failed: " ++ e)⟩) ∨
    (∃ chs, forEachProduct r conn pf pi products = .ok chs ∧
       action_generate_preview r conn pf pi products =
         ⟨[.analyzing, .ready], .ok chs⟩) := by
  cases ha : r.authenticate with
  | error e =>
      exact Or.inl ⟨e, by simp [action_generate_preview, hne, ha]⟩
  | ok u =>
      cases u with
      | none =>
          exact Or.inl ⟨authFailureMessage,
            by simp [action_generate_preview, hne, ha]⟩
      | some uid =>
          cases hf : forEachProduct r conn pf pi products with
          | error e =>
              exact Or.inl ⟨e, by simp [action_generate_preview, hne, ha, hf]⟩
          | ok chs =>
              exact Or.inr ⟨chs, rfl,
                by simp [action_generate_preview, hne, ha, hf]⟩

/-- Claim C7: Preview generation of a non-empty batch is all-or-nothing:
it first sets the state to `analyzing`; a falsy remote authentication
aborts before any per-product work, surfacing the wrapped diagnostic
that names the API Key, Username and Database, with the state reset to
`draft`; any surfaced error leaves the state at `draft`; and a fully
successful analysis ends at `ready` with one change record per
product. -/
theorem C7_preview_all_or_nothing (r : Remote) (conn : Connection)
    (pf : String → Option PyFloat) (pi : String → Option ℤ)
    (products : List Product) (hne : products ≠ []) :
    (action_generate_preview r conn pf pi products).stateWrites.head? =
      some .analyzing ∧
    (r.authenticate = .ok Option.none →
       action_generate_preview r conn pf pi products =
         ⟨[.analyzing, .draft],
          .error ("Preview generation failed: " ++ authFailureMessage)⟩) ∧
    (containsSub authFailureMessage "API Key" = true ∧
     containsSub authFailureMessage "Username" = true ∧
     containsSub authFailureMessage "Database" = true) ∧
    (∀ e, (action_generate_preview r conn pf pi products).outcome = .error e →
       (action_generate_preview r conn pf pi products).stateWrites =
         [.analyzing, .draft]) ∧
    (∀ chs, (action_generate_preview r conn pf pi products).outcome = .ok chs →
       (action_generate_preview r conn pf pi products).stateWrites =
         [.analyzing, .ready] ∧ chs.length = products.length) := by
  have hipe : products.isEmpty = false := by
    cases products with
    | nil => exact absurd rfl hne
    | cons a t => rfl
  refine ⟨?_, ?_, by decide, ?_, ?_⟩
  · rcases action_generate_preview_cases r conn pf pi products hipe with
      ⟨e, hq⟩ | ⟨chs, hf, hq⟩ <;> rw [hq] <;> rfl
  · intro hauth
    simp [action_generate_preview, hipe, hauth]
  · intro e he
    rcases action_generate_preview_cases r conn pf pi products hipe with
      ⟨e2, hq⟩ | ⟨chs, hf, hq⟩
    · rw [hq]
    · rw [hq] at he
      cases he
  · intro chs he
    rcases action_generate_preview_cases r conn pf pi products hipe with
      ⟨e2, hq⟩ | ⟨chs2, hf, hq⟩
    · rw [hq] at he
      cases he
    · rw [hq] at he
      cases he
      exact ⟨by rw [hq], forEachProduct_length r conn pf pi products _ hf⟩

/-- A remote whose authentication returns a falsy uid. -/
def remoteAuthFail : Remote :=
  { authenticate := .ok Option.none,
    search := fun _ => .ok [],
    readRecord := fun _ => .ok (fun _ => .none),
    variantPreview := fun _ _ => .ok [] }

/-- Witness for C7: the falsy-authentication clause at a concrete
one-product batch. -/
theorem C7_preview_all_or_nothing_witness :
    action_generate_preview remoteAuthFail connC1 pfNone piNone [prodC1] =
      ⟨[.analyzing, .draft],
       .error ("Preview generation failed: " ++ authFailureMessage)⟩ :=
  (C7_preview_all_or_nothing remoteAuthFail connC1 pfNone piNone [prodC1]
    (List.cons_ne_nil _ _)).2.1 rfl

end CatalogPortal
